import Mathlib

/-!
Formal model of the `ieos-slack-logger` service (`pubsub_handler.go`):
a Pub/Sub handler that parses a Cloud Logging `LogEntry` JSON payload,
formats a concise Slack message, picks a channel from the severity, and
sends it through the Slack client wrapper `SendMessage`.

External effects are made explicit:
  * the three channel environment variables become a `ChannelEnv` record;
  * the Slack `PostMessage` API becomes a function parameter `post`,
    returning either a timestamp or an error string, and every call made
    to it is collected in a list so that "no relay call occurs" is statable;
  * log output (`reqLog.Warning/Error/Info`) becomes a returned list of
    `LogRec` records;
  * `json.Unmarshal` of the payload bytes is modelled by its outcome:
    the data is empty, fails to parse (with some error message), or
    yields a JSON object, represented by the inductive `PubSubData`.
JSON numbers are modelled as integers; no claim depends on float formatting.
-/

namespace SlackLogger

/-- A decoded JSON value, the model of what `json.Unmarshal` produces for
an `any` slot (`nil`, `bool`, `float64`, `string`, `[]any`, `map[string]any`). -/
inductive JValue where
  | null : JValue
  | bool : Bool → JValue
  | num : Int → JValue
  | str : String → JValue
  | arr : List JValue → JValue
  | obj : List (String × JValue) → JValue
deriving Repr

/-- Escaping of one character inside a JSON string literal. -/
def jsonEscapeChar (c : Char) : String :=
  if c = '"' then "\\\""
  else if c = '\\' then "\\\\"
  else if c = '\n' then "\\n"
  else if c = '\t' then "\\t"
  else if c = '\r' then "\\r"
  else String.singleton c

/-- A JSON string literal with its quotes. -/
def jsonQuote (s : String) : String :=
  "\"" ++ String.join (s.toList.map jsonEscapeChar) ++ "\""

mutual

/-- Compact JSON rendering of a decoded value: the model of
`json.Marshal` applied to a value previously produced by `json.Unmarshal`
(on such values `json.Marshal` always succeeds). -/
def jsonMarshal : JValue → String
  | JValue.null => "null"
  | JValue.bool true => "true"
  | JValue.bool false => "false"
  | JValue.num n => toString n
  | JValue.str s => jsonQuote s
  | JValue.arr xs => "[" ++ jsonMarshalList xs ++ "]"
  | JValue.obj fs => "\x7b" ++ jsonMarshalFields fs ++ "\x7d"

/-- Comma-separated rendering of array elements. -/
def jsonMarshalList : List JValue → String
  | [] => ""
  | [v] => jsonMarshal v
  | v :: vs => jsonMarshal v ++ "," ++ jsonMarshalList vs

/-- Comma-separated rendering of object fields. -/
def jsonMarshalFields : List (String × JValue) → String
  | [] => ""
  | [(k, v)] => jsonQuote k ++ ":" ++ jsonMarshal v
  | (k, v) :: fs => jsonQuote k ++ ":" ++ jsonMarshal v ++ "," ++ jsonMarshalFields fs

end

/-- Lookup of a key in a decoded JSON object (`payload["key"]`); `none`
models the `nil` result for an absent key. Decoded Go maps have unique
keys, so first-match lookup is faithful. -/
def jlookup (fields : List (String × JValue)) (k : String) : Option JValue :=
  match fields with
  | [] => none
  | (k2, v) :: rest => if k2 = k then some v else jlookup rest k

/-- Model of `strings.Contains s pat`. -/
def strContains (s pat : String) : Bool :=
  decide (pat.toList <:+: s.toList)

/-- Model of `strings.ToUpper`, character by character (the severities
involved are ASCII, where `Char.toUpper` agrees with Go's mapping). -/
def strToUpper (s : String) : String :=
  String.mk (s.data.map Char.toUpper)

/-- The three channel environment variables read by
`chooseChannelForSeverity`; the empty string models an unset variable,
exactly as `os.Getenv` reports it. -/
structure ChannelEnv where
  slackErrorChannelID : String
  slackWarningChannelID : String
  slackDefaultChannelID : String
deriving Repr

/-- `getString(v any) string`: the type assertion `v.(string)` with the
zero value on failure; `none` models a `nil` interface value. -/
def getString (v : Option JValue) : String :=
  match v with
  | some (JValue.str s) => s
  | _ => ""

/-- `chooseChannelForSeverity`: uppercase the severity, pick the bucket
channel when its variable is set, otherwise fall through to the default
variable, otherwise return the empty string. -/
def chooseChannelForSeverity (env : ChannelEnv) (sev : String) : String :=
  let sevU := strToUpper sev
  let bucket : Option String :=
    if sevU = "CRITICAL" ∨ sevU = "ALERT" ∨ sevU = "EMERGENCY" ∨ sevU = "ERROR" then
      if env.slackErrorChannelID ≠ "" then some env.slackErrorChannelID else none
    else if sevU = "WARNING" ∨ sevU = "NOTICE" then
      if env.slackWarningChannelID ≠ "" then some env.slackWarningChannelID else none
    else none
  match bucket with
  | some v => v
  | none =>
    if env.slackDefaultChannelID ≠ "" then env.slackDefaultChannelID
    else ""

/-- Outcome of the length check and `json.Unmarshal` on the Pub/Sub
`Data` bytes: the bytes are empty, they fail to parse (carrying the
decoder's error message), or they decode to a JSON object. -/
inductive PubSubData where
  | empty : PubSubData
  | malformed : String → PubSubData
  | object : List (String × JValue) → PubSubData

/-- One record emitted through the request logger. -/
inductive LogRec where
  | warningRec : String → LogRec
  | errorRec : String → String → LogRec
  | infoRec : String → String → String → LogRec
deriving Repr, DecidableEq

/-- The severity string used by `HandleLogAlert` after extraction:
the `severity` field when it is a non-empty string, `"DEFAULT"` otherwise. -/
def effSeverity (payload : List (String × JValue)) : String :=
  let severity := getString (jlookup payload "severity")
  if severity = "" then "DEFAULT" else severity

/-- The message built by `HandleLogAlert` with `strings.Builder`:
`"[SEVERITY] logName"`, then a newline plus `textPayload` when that is
non-empty, then a newline plus a compact JSON excerpt when `jsonPayload`
is present and non-null. -/
def formatMessage (payload : List (String × JValue)) : String :=
  let severity := effSeverity payload
  let logName := getString (jlookup payload "logName")
  let text := getString (jlookup payload "textPayload")
  let b := "[" ++ severity ++ "] " ++ logName
  let b := if text ≠ "" then b ++ "\n" ++ text else b
  match jlookup payload "jsonPayload" with
  | some JValue.null => b
  | some jp => b ++ "\njson: " ++ jsonMarshal jp
  | none => b

/-- The human-readable rewriting `SendMessage` applies to a failed
`PostMessage` error, matched by substring in source order. -/
def rewriteSlackError (e : String) : String :=
  if strContains e "invalid_auth" then
    "slack authentication failed - please check your bot token and permissions"
  else if strContains e "channel_not_found" then
    "slack channel not found - please check your channel ID"
  else if strContains e "not_in_channel" then
    "slack bot is not in the specified channel - please invite the bot to the channel"
  else
    "failed to send slack message: " ++ e

/-- `SendMessage(channelID, message)`: refuse when Slack is not enabled,
refuse an empty channel ID, otherwise call `PostMessage` (modelled by
`post`), rewriting errors via `rewriteSlackError`. The second component
collects the `PostMessage` calls actually made. -/
def SendMessage (enabled : Bool) (post : String → String → Except String String)
    (channelID message : String) : Except String String × List (String × String) :=
  if !enabled then (Except.error "slack is not properly configured", [])
  else if channelID = "" then (Except.error "channel ID is required", [])
  else
    match post channelID message with
    | Except.ok timestamp => (Except.ok timestamp, [(channelID, message)])
    | Except.error e => (Except.error (rewriteSlackError e), [(channelID, message)])

/-- `HandleLogAlert`: fail closed on empty or malformed data (logging a
warning or an error record first), otherwise format the message, choose
the channel and send, logging the outcome. Returns the handler's error
result, the log records emitted, and the `PostMessage` calls made. -/
def HandleLogAlert (env : ChannelEnv) (enabled : Bool)
    (post : String → String → Except String String) (data : PubSubData) :
    Except String Unit × List LogRec × List (String × String) :=
  match data with
  | PubSubData.empty =>
    (Except.error "empty pubsub data", [LogRec.warningRec "empty pubsub data"], [])
  | PubSubData.malformed e =>
    (Except.error e, [LogRec.errorRec "failed to parse pubsub json" e], [])
  | PubSubData.object payload =>
    let message := formatMessage payload
    let channelID := chooseChannelForSeverity env (effSeverity payload)
    match SendMessage enabled post channelID message with
    | (Except.error err, calls) =>
      (Except.error err, [LogRec.errorRec "slack send failed" err], calls)
    | (Except.ok ts, calls) =>
      (Except.ok (), [LogRec.infoRec "slack message sent" ts channelID], calls)

/-- The value of `isSlackEnabled` computed by `init`: false when the
token is unset, false when it lacks the `xoxb-` prefix, false when the
authentication test (modelled by `authResult`) fails, true otherwise. -/
def slackEnabledFromInit (botToken : String) (authResult : Except String Unit) : Bool :=
  if botToken = "" then false
  else if !(botToken.startsWith "xoxb-") then false
  else
    match authResult with
    | Except.error _ => false
    | Except.ok _ => true

/-- Claim C1: channel selection is case-insensitive and follows the bucket
table — CRITICAL, ALERT, EMERGENCY and ERROR route to the error destination,
WARNING and NOTICE to the warning destination, and any other severity, or a
bucket whose destination is unset, falls back to the default destination
(which is the empty string when unset). -/
theorem chooseChannel_bucket_table (env : ChannelEnv) (s t : String)
    (h : strToUpper s = strToUpper t) :
    chooseChannelForSeverity env s = chooseChannelForSeverity env t
    ∧ chooseChannelForSeverity env s =
        (if strToUpper s = "CRITICAL" ∨ strToUpper s = "ALERT"
            ∨ strToUpper s = "EMERGENCY" ∨ strToUpper s = "ERROR" then
          (if env.slackErrorChannelID ≠ "" then env.slackErrorChannelID
           else env.slackDefaultChannelID)
         else if strToUpper s = "WARNING" ∨ strToUpper s = "NOTICE" then
          (if env.slackWarningChannelID ≠ "" then env.slackWarningChannelID
           else env.slackDefaultChannelID)
         else env.slackDefaultChannelID) := by
  constructor
  · simp only [chooseChannelForSeverity, h]
  · simp only [chooseChannelForSeverity]
    split_ifs <;> simp_all

/-- Claim C1 witness: `"error"` and `"ERROR"` route identically, and the
table gives the error destination. -/
theorem chooseChannel_bucket_table_witness :
    chooseChannelForSeverity ⟨"E", "W", "D"⟩ "error"
        = chooseChannelForSeverity ⟨"E", "W", "D"⟩ "ERROR"
    ∧ chooseChannelForSeverity ⟨"E", "W", "D"⟩ "error" =
        (if strToUpper "error" = "CRITICAL" ∨ strToUpper "error" = "ALERT"
            ∨ strToUpper "error" = "EMERGENCY" ∨ strToUpper "error" = "ERROR" then
          (if ("E" : String) ≠ "" then "E" else "D")
         else if strToUpper "error" = "WARNING" ∨ strToUpper "error" = "NOTICE" then
          (if ("W" : String) ≠ "" then "W" else "D")
         else "D") :=
  chooseChannel_bucket_table ⟨"E", "W", "D"⟩ "error" "ERROR" (by decide)

/-- Claim C2: on empty data the handler logs a warning record and returns a
non-nil error; on unparsable data it logs an error record and returns the
decoder's error; in both cases no call reaches the relay capability. -/
theorem handleLogAlert_malformed_input (env : ChannelEnv) (enabled : Bool)
    (post : String → String → Except String String) (e : String) :
    HandleLogAlert env enabled post PubSubData.empty =
      (Except.error "empty pubsub data", [LogRec.warningRec "empty pubsub data"], [])
    ∧ HandleLogAlert env enabled post (PubSubData.malformed e) =
      (Except.error e, [LogRec.errorRec "failed to parse pubsub json" e], []) :=
  ⟨rfl, rfl⟩

/-- Claim C3: the documented scenario — severity ERROR, log name
`projects/p/logs/l`, text `boom`, error destination `C1`, relay succeeding
with delivery token `ts` — sends exactly `"[ERROR] projects/p/logs/l\nboom"`
to `C1`, returns success, and logs an info record with the token and the
destination. -/
theorem handleLogAlert_error_scenario (w d ts : String) :
    HandleLogAlert ⟨"C1", w, d⟩ true (fun _ _ => Except.ok ts)
      (PubSubData.object [("severity", JValue.str "ERROR"),
        ("logName", JValue.str "projects/p/logs/l"),
        ("textPayload", JValue.str "boom")]) =
      (Except.ok (), [LogRec.infoRec "slack message sent" ts "C1"],
        [("C1", "[ERROR] projects/p/logs/l\nboom")]) := by
  rfl

/-- Claim C4: when the matched bucket's channel and the default channel are
all unset, channel selection yields the empty destination without failing,
the relay capability `SendMessage` rejects that empty destination with the
validation error `"channel ID is required"`, and the handler surfaces
exactly that error (logging it) rather than failing earlier. -/
theorem noChannel_validation_error (env : ChannelEnv) (sev : String)
    (post : String → String → Except String String)
    (payload : List (String × JValue)) (m : String)
    (herr : env.slackErrorChannelID = "")
    (hwarn : env.slackWarningChannelID = "")
    (hdef : env.slackDefaultChannelID = "") :
    chooseChannelForSeverity env sev = ""
    ∧ SendMessage true post "" m = (Except.error "channel ID is required", [])
    ∧ HandleLogAlert env true post (PubSubData.object payload) =
        (Except.error "channel ID is required",
         [LogRec.errorRec "slack send failed" "channel ID is required"], []) := by
  have hchoose : ∀ s, chooseChannelForSeverity env s = "" := by
    intro s
    simp only [chooseChannelForSeverity]
    split_ifs <;> simp_all
  refine ⟨hchoose sev, rfl, ?_⟩
  simp only [HandleLogAlert, hchoose]
  rfl

/-- Claim C4 witness: with all three channel variables unset, severity INFO
yields the empty destination, `SendMessage` rejects it, and the handler
returns the validation error. -/
theorem noChannel_validation_error_witness :
    chooseChannelForSeverity ⟨"", "", ""⟩ "INFO" = ""
    ∧ SendMessage true (fun _ _ => Except.ok "t") "" "msg"
        = (Except.error "channel ID is required", [])
    ∧ HandleLogAlert ⟨"", "", ""⟩ true (fun _ _ => Except.ok "t")
        (PubSubData.object [("severity", JValue.str "INFO")]) =
        (Except.error "channel ID is required",
         [LogRec.errorRec "slack send failed" "channel ID is required"], []) :=
  noChannel_validation_error ⟨"", "", ""⟩ "INFO" (fun _ _ => Except.ok "t")
    [("severity", JValue.str "INFO")] "msg" rfl rfl rfl

/-- Claim C5: a failed `PostMessage` error is rewritten by substring match —
authentication failure, destination-not-found and not-a-member each get a
distinct human-readable message, anything else is wrapped generically — and
whatever error `SendMessage` returns, the handler logs exactly that error in
a `"slack send failed"` record before returning it. -/
theorem sendMessage_error_taxonomy (env : ChannelEnv)
    (post : String → String → Except String String)
    (payload : List (String × JValue)) (ch m e err : String)
    (calls : List (String × String))
    (hch : ch ≠ "")
    (hpost : post ch m = Except.error e)
    (hsend : SendMessage true post
        (chooseChannelForSeverity env (effSeverity payload)) (formatMessage payload)
        = (Except.error err, calls)) :
    SendMessage true post ch m = (Except.error (rewriteSlackError e), [(ch, m)])
    ∧ (strContains e "invalid_auth" = true →
        rewriteSlackError e =
          "slack authentication failed - please check your bot token and permissions")
    ∧ (strContains e "invalid_auth" = false → strContains e "channel_not_found" = true →
        rewriteSlackError e = "slack channel not found - please check your channel ID")
    ∧ (strContains e "invalid_auth" = false → strContains e "channel_not_found" = false →
        strContains e "not_in_channel" = true →
        rewriteSlackError e =
          "slack bot is not in the specified channel - please invite the bot to the channel")
    ∧ (strContains e "invalid_auth" = false → strContains e "channel_not_found" = false →
        strContains e "not_in_channel" = false →
        rewriteSlackError e = "failed to send slack message: " ++ e)
    ∧ ("slack authentication failed - please check your bot token and permissions" : String)
        ≠ "slack channel not found - please check your channel ID"
    ∧ ("slack channel not found - please check your channel ID" : String)
        ≠ "slack bot is not in the specified channel - please invite the bot to the channel"
    ∧ ("slack authentication failed - please check your bot token and permissions" : String)
        ≠ "slack bot is not in the specified channel - please invite the bot to the channel"
    ∧ HandleLogAlert env true post (PubSubData.object payload) =
        (Except.error err, [LogRec.errorRec "slack send failed" err], calls) := by
  refine ⟨?_, ?_, ?_, ?_, ?_, by decide, by decide, by decide, ?_⟩
  · simp only [SendMessage, Bool.not_true, Bool.false_eq_true, if_false, if_neg hch, hpost]
  · intro h1
    simp only [rewriteSlackError, h1, if_true]
  · intro h1 h2
    simp only [rewriteSlackError, h1, h2, Bool.false_eq_true, if_false, if_true]
  · intro h1 h2 h3
    simp only [rewriteSlackError, h1, h2, h3, Bool.false_eq_true, if_false, if_true]
  · intro h1 h2 h3
    simp only [rewriteSlackError, h1, h2, h3, Bool.false_eq_true, if_false]
  · simp only [HandleLogAlert, hsend]

/-- Claim C5 witness: an `invalid_auth` relay failure is rewritten to the
authentication message, and the handler logs and returns the rewritten
error of the actual send. -/
theorem sendMessage_error_taxonomy_witness :
    SendMessage true (fun _ _ => Except.error "invalid_auth") "C" "m"
        = (Except.error (rewriteSlackError "invalid_auth"), [("C", "m")])
    ∧ (strContains "invalid_auth" "invalid_auth" = true →
        rewriteSlackError "invalid_auth" =
          "slack authentication failed - please check your bot token and permissions")
    ∧ (strContains "invalid_auth" "invalid_auth" = false →
        strContains "invalid_auth" "channel_not_found" = true →
        rewriteSlackError "invalid_auth" =
          "slack channel not found - please check your channel ID")
    ∧ (strContains "invalid_auth" "invalid_auth" = false →
        strContains "invalid_auth" "channel_not_found" = false →
        strContains "invalid_auth" "not_in_channel" = true →
        rewriteSlackError "invalid_auth" =
          "slack bot is not in the specified channel - please invite the bot to the channel")
    ∧ (strContains "invalid_auth" "invalid_auth" = false →
        strContains "invalid_auth" "channel_not_found" = false →
        strContains "invalid_auth" "not_in_channel" = false →
        rewriteSlackError "invalid_auth" = "failed to send slack message: " ++ "invalid_auth")
    ∧ ("slack authentication failed - please check your bot token and permissions" : String)
        ≠ "slack channel not found - please check your channel ID"
    ∧ ("slack channel not found - please check your channel ID" : String)
        ≠ "slack bot is not in the specified channel - please invite the bot to the channel"
    ∧ ("slack authentication failed - please check your bot token and permissions" : String)
        ≠ "slack bot is not in the specified channel - please invite the bot to the channel"
    ∧ HandleLogAlert ⟨"E", "W", "D"⟩ true (fun _ _ => Except.error "invalid_auth")
        (PubSubData.object [("severity", JValue.str "ERROR")]) =
        (Except.error
          "slack authentication failed - please check your bot token and permissions",
         [LogRec.errorRec "slack send failed"
          "slack authentication failed - please check your bot token and permissions"],
         [("E", "[ERROR] ")]) :=
  sendMessage_error_taxonomy ⟨"E", "W", "D"⟩ (fun _ _ => Except.error "invalid_auth")
    [("severity", JValue.str "ERROR")] "C" "m" "invalid_auth"
    "slack authentication failed - please check your bot token and permissions"
    [("E", "[ERROR] ")] (by decide) rfl rfl

/-- A successful `SendMessage` made exactly the one `PostMessage` call with
the resolved channel and message. -/
theorem SendMessage_ok_calls (enabled : Bool)
    (post : String → String → Except String String) (ch m ts : String)
    (calls : List (String × String))
    (h : SendMessage enabled post ch m = (Except.ok ts, calls)) :
    calls = [(ch, m)] := by
  by_cases he : enabled = true
  · subst he
    simp only [SendMessage, Bool.not_true, Bool.false_eq_true, if_false] at h
    by_cases hch : ch = ""
    · rw [if_pos hch] at h
      simp at h
    · rw [if_neg hch] at h
      rcases hp : post ch m with er | t
      · rw [hp] at h
        simp at h
      · rw [hp] at h
        simp only [Prod.mk.injEq, Except.ok.injEq] at h
        exact h.2.symm
  · have he2 : enabled = false := by revert he; cases enabled <;> simp
    rw [he2] at h
    simp [SendMessage] at h

/-- Claim C7: the relay is deterministic and stateless (beyond the one-time
logger cache, which the model makes explicit by purity): every successful
call makes exactly one delivery, and a second call with identical input
delivers the identical destination and message again — two independent
deliveries, no deduplication. -/
theorem relay_idempotent_no_dedup (env : ChannelEnv) (enabled : Bool)
    (post : String → String → Except String String) (d : PubSubData)
    (hsucc : (HandleLogAlert env enabled post d).1 = Except.ok ()) :
    ((HandleLogAlert env enabled post d).2.2).length = 1
    ∧ (HandleLogAlert env enabled post d).2.2 ++ (HandleLogAlert env enabled post d).2.2
        = [((HandleLogAlert env enabled post d).2.2).head!,
           ((HandleLogAlert env enabled post d).2.2).head!] := by
  rcases d with _ | e | payload
  · simp [HandleLogAlert] at hsucc
  · simp [HandleLogAlert] at hsucc
  · simp only [HandleLogAlert] at hsucc ⊢
    rcases hS : SendMessage enabled post
        (chooseChannelForSeverity env (effSeverity payload)) (formatMessage payload)
      with ⟨res, calls⟩
    rcases res with er | ts
    · rw [hS] at hsucc
      exact Except.noConfusion hsucc
    · have hc := SendMessage_ok_calls enabled post _ _ ts calls hS
      subst hc
      exact ⟨rfl, rfl⟩

/-- Claim C7 witness: a concrete successful relay makes one delivery, and
two identical calls deliver the same pair twice. -/
theorem relay_idempotent_no_dedup_witness :
    ((HandleLogAlert ⟨"C1", "", ""⟩ true (fun _ _ => Except.ok "t")
        (PubSubData.object [("severity", JValue.str "ERROR"),
          ("logName", JValue.str "projects/p/logs/l"),
          ("textPayload", JValue.str "boom")])).2.2).length = 1
    ∧ (HandleLogAlert ⟨"C1", "", ""⟩ true (fun _ _ => Except.ok "t")
        (PubSubData.object [("severity", JValue.str "ERROR"),
          ("logName", JValue.str "projects/p/logs/l"),
          ("textPayload", JValue.str "boom")])).2.2
      ++ (HandleLogAlert ⟨"C1", "", ""⟩ true (fun _ _ => Except.ok "t")
        (PubSubData.object [("severity", JValue.str "ERROR"),
          ("logName", JValue.str "projects/p/logs/l"),
          ("textPayload", JValue.str "boom")])).2.2
        = [((HandleLogAlert ⟨"C1", "", ""⟩ true (fun _ _ => Except.ok "t")
            (PubSubData.object [("severity", JValue.str "ERROR"),
              ("logName", JValue.str "projects/p/logs/l"),
              ("textPayload", JValue.str "boom")])).2.2).head!,
           ((HandleLogAlert ⟨"C1", "", ""⟩ true (fun _ _ => Except.ok "t")
            (PubSubData.object [("severity", JValue.str "ERROR"),
              ("logName", JValue.str "projects/p/logs/l"),
              ("textPayload", JValue.str "boom")])).2.2).head!] :=
  relay_idempotent_no_dedup ⟨"C1", "", ""⟩ true (fun _ _ => Except.ok "t")
    (PubSubData.object [("severity", JValue.str "ERROR"),
      ("logName", JValue.str "projects/p/logs/l"),
      ("textPayload", JValue.str "boom")]) rfl

/-- Claim C8: the built message is the first line `"[SEVERITY] logName"`,
then the text payload on a new line when non-empty, then a compact JSON
excerpt line when `jsonPayload` is present and non-null (values decoded
from JSON are always marshalable, so the excerpt is always rendered). -/
theorem formatMessage_structure (payload : List (String × JValue)) :
    formatMessage payload =
      "[" ++ effSeverity payload ++ "] " ++ getString (jlookup payload "logName")
      ++ (if getString (jlookup payload "textPayload") ≠ ""
          then "\n" ++ getString (jlookup payload "textPayload") else "")
      ++ (match jlookup payload "jsonPayload" with
          | some JValue.null => ""
          | some jp => "\njson: " ++ jsonMarshal jp
          | none => "") := by
  simp only [formatMessage]
  rcases hj : jlookup payload "jsonPayload" with _ | jp
  · split_ifs <;> simp [String.append_assoc, String.append_empty]
  · rcases jp with _ | b | n | s | xs | fs <;>
      split_ifs <;> simp [String.append_assoc, String.append_empty]

/-- Claim C9: a `severity` field that is absent, null, or not a JSON string
yields the literal severity `"DEFAULT"`, whose channel selection resolves to
the default destination; extraction via `getString` is total, returning the
empty string on any non-string value. -/
theorem severity_default_extraction (env : ChannelEnv)
    (payload : List (String × JValue)) (v u : JValue)
    (hsev : jlookup payload "severity" = none
        ∨ jlookup payload "severity" = some JValue.null
        ∨ (jlookup payload "severity" = some v ∧ ∀ s, v ≠ JValue.str s))
    (hu : ∀ s, u ≠ JValue.str s) :
    effSeverity payload = "DEFAULT"
    ∧ chooseChannelForSeverity env (effSeverity payload) = env.slackDefaultChannelID
    ∧ getString (some u) = "" := by
  have hget : getString (jlookup payload "severity") = "" := by
    rcases hsev with h | h | ⟨h, hv⟩
    · rw [h]; rfl
    · rw [h]; rfl
    · rw [h]
      rcases v with _ | b | n | s | xs | fs
      · rfl
      · rfl
      · rfl
      · exact absurd rfl (hv s)
      · rfl
      · rfl
  have heff : effSeverity payload = "DEFAULT" := by
    simp [effSeverity, hget]
  refine ⟨heff, ?_, ?_⟩
  · rw [heff]
    simp only [chooseChannelForSeverity]
    rw [if_neg (by decide), if_neg (by decide)]
    split_ifs <;> simp_all
  · rcases u with _ | b | n | s | xs | fs
    · rfl
    · rfl
    · rfl
    · exact absurd rfl (hu s)
    · rfl
    · rfl

/-- Claim C9 witness: a numeric severity field gives `"DEFAULT"`, routes to
the default destination, and extracts to the empty string. -/
theorem severity_default_extraction_witness :
    effSeverity [("severity", JValue.num 42)] = "DEFAULT"
    ∧ chooseChannelForSeverity ⟨"E", "W", "D"⟩
        (effSeverity [("severity", JValue.num 42)]) = "D"
    ∧ getString (some (JValue.num 42)) = "" :=
  severity_default_extraction ⟨"E", "W", "D"⟩ [("severity", JValue.num 42)]
    (JValue.num 42) (JValue.num 42)
    (Or.inr (Or.inr ⟨rfl, fun _ h => JValue.noConfusion h⟩))
    (fun _ h => JValue.noConfusion h)

/-- Claim C10: if initialization left Slack disabled (missing token, token
without the `xoxb-` prefix, or failed authentication test), every later
`SendMessage` returns the configuration error and attempts no delivery,
whatever the destination and message. -/
theorem slackDisabled_blocks_send (tok : String) (auth : Except String Unit)
    (post : String → String → Except String String) (ch m : String)
    (h : tok = "" ∨ tok.startsWith "xoxb-" = false ∨ ∃ e, auth = Except.error e) :
    slackEnabledFromInit tok auth = false
    ∧ SendMessage (slackEnabledFromInit tok auth) post ch m
        = (Except.error "slack is not properly configured", []) := by
  have hen : slackEnabledFromInit tok auth = false := by
    rcases h with h | h | ⟨e, he⟩
    · simp [slackEnabledFromInit, h]
    · simp [slackEnabledFromInit, h]
    · subst he
      simp [slackEnabledFromInit]
  rw [hen]
  exact ⟨rfl, rfl⟩

/-- Claim C10 witness: with an unset token, Slack is disabled and a send is
refused with the configuration error and no delivery attempt. -/
theorem slackDisabled_blocks_send_witness :
    slackEnabledFromInit "" (Except.ok ()) = false
    ∧ SendMessage (slackEnabledFromInit "" (Except.ok ()))
        (fun _ _ => Except.ok "t") "c" "m"
        = (Except.error "slack is not properly configured", []) :=
  slackDisabled_blocks_send "" (Except.ok ()) (fun _ _ => Except.ok "t") "c" "m"
    (Or.inl rfl)

end SlackLogger
